import Mathlib

/-!
Shallow embedding of the VimAI editor (`src/vimai.py`).

The embedding covers the parts of the program that the verified properties
are about: the modal keystroke dispatcher (`VimTextEdit.keyPressEvent` and
`VimAIEditor.vim_key_handler`), the mode setters, the command-line executor
(`execute_vim_command`), the in-memory file tree with its open/save/search
operations, the line-number-area diagnostic setters, and the lint pass
(`lint_code`).

Modelling conventions:
- Python strings are modelled as Lean `String`; the Python string
  operations used by the program (`in`, `startswith`, `endswith`, `strip`,
  `split`, slicing) are re-implemented over `List Char` by structural
  recursion so that every definition evaluates inside the kernel.
- Qt widget operations that edit or scroll the text document
  (cursor moves, `deleteChar`, `removeSelectedText`, `undo`, `redo`,
  falling through to `QPlainTextEdit.keyPressEvent`) are recorded as an
  explicit list of emitted `Effect`s; pure GUI output with no bearing on
  editor state (stylesheets, focus, repaint) is omitted.
- `event.modifiers()` is abstracted to which modifier is held
  (`noMods` models Qt `NoModifier`, i.e. the Python truth test
  `not modifiers` succeeding; `ctrl` models `ControlModifier`).
- Python `dict` values are association lists in insertion order where
  assignment to an existing key replaces its value; Python `set(lines)` is
  modelled by order-preserving deduplication of the list.
-/

/-! ## Python string primitives over `List Char` -/

/-- `leadsWith pat l` is true when `pat` is an initial segment of `l`
(Python `l.startswith(pat)` at char-list level). -/
def leadsWith : List Char → List Char → Bool
  | [], _ => true
  | _ :: _, [] => false
  | p :: ps, c :: cs => p == c && leadsWith ps cs

/-- `containsSeq pat l` is true when `pat` occurs contiguously inside `l`
(Python `pat in l` at char-list level). -/
def containsSeq (pat : List Char) : List Char → Bool
  | [] => leadsWith pat []
  | c :: cs => leadsWith pat (c :: cs) || containsSeq pat cs

/-- Python `sub in s` for strings. -/
def pyIn (sub s : String) : Bool := containsSeq sub.toList s.toList

/-- Python `s.startswith(pre)`. -/
def pyStartsWith (s pre : String) : Bool := leadsWith pre.toList s.toList

/-- Python `s.endswith(suff)`. -/
def pyEndsWith (s suff : String) : Bool :=
  leadsWith suff.toList.reverse s.toList.reverse

/-- The whitespace characters stripped by Python `str.strip()`. -/
def isPySpace (c : Char) : Bool :=
  c == ' ' || c == '\t' || c == '\n' || c == '\r' || c == '\x0b' || c == '\x0c'

/-- Python `s.strip()`. -/
def pyStrip (s : String) : String :=
  String.mk (((s.toList.dropWhile isPySpace).reverse.dropWhile isPySpace).reverse)

/-- Python `s[n:]`. -/
def pyDrop (s : String) (n : Nat) : String := String.mk (s.toList.drop n)

/-- Python `s[:-1]`. -/
def pyDropLast (s : String) : String := String.mk s.toList.dropLast

/-- Helper for `pySplitNl`: split a char list at newline characters. -/
def splitNlChars : List Char → List (List Char)
  | [] => [[]]
  | c :: cs =>
      let r := splitNlChars cs
      if c == '\n' then [] :: r
      else
        match r with
        | [] => [[c]]
        | h :: t => (c :: h) :: t

/-- Python `s.split(chr(10))`, as used by `lint_code`. -/
def pySplitNl (s : String) : List String := (splitNlChars s.toList).map String.mk

/-! ## Data model -/

/-- A node of the in-memory file tree (`VirtualFileSystemModel`): a Python
dict with a name, a type tag, and either a content blob (files) or a
children list (directories). -/
inductive FSNode where
  | file (name content : String) : FSNode
  | dir (name : String) (children : List FSNode) : FSNode
deriving Repr

/-- The Qt key codes the dispatcher compares against (`Qt.Key_Escape`,
`Qt.Key_Return`, `Qt.Key_Backspace`); every other key code is `otherKey`. -/
inductive QtKey where
  | escape | returnKey | backspace | otherKey
deriving Repr, DecidableEq

/-- Which modifier is held during a key event. `noMods` is Qt
`NoModifier` (so Python `not modifiers` is true); `ctrl` is
`ControlModifier`; `shiftMod` and `otherMods` cover the rest. -/
inductive QtModifiers where
  | noMods | ctrl | shiftMod | otherMods
deriving Repr, DecidableEq

/-- A Qt key event as the dispatcher observes it: `event.key()`,
`event.text()` and `event.modifiers()`. -/
structure KeyEvent where
  key : QtKey
  text : String
  mods : QtModifiers
deriving Repr, DecidableEq

/-- Side effects on the Qt text widget and the outside world, emitted by
the dispatcher and the command executor. -/
inductive Effect where
  | moveLeft | moveRight | moveUp | moveDown | moveEnd | moveStart
  | deleteChar
  | deleteLine
  | undo
  | redo
  | defaultKeyPress
  | closeWindow
  | callAI (prompt code : String)
  | explainCode
  | runFile
deriving Repr, DecidableEq

/-- The editor state: the `VimAIEditor` attributes the verified code reads
and writes, the text document of the `VimTextEdit`, the diagnostic fields
of the `LineNumberArea`, and the file tree. -/
structure EditorState where
  vim_mode : Bool
  insert_mode : Bool
  command_mode : Bool
  last_action : Option String
  current_file : Option String
  modified : Bool
  command_buffer : String
  bufferText : String
  tree : List FSNode
  error_lines : List Nat
  warning_lines : List Nat
  info_lines : List Nat
  error_messages : List (Nat × String)
  warning_messages : List (Nat × String)
  info_messages : List (Nat × String)
  mode_label : String
  file_status_label : String
  ai_status_label : String
  ai_connected : Bool
  ai_output : String
  documentLanguage : Option String
deriving Repr

/-! ## Mode setters and status labels -/

/-- `VimAIEditor.set_normal_mode` (stylesheet update omitted). -/
def setNormalMode (st : EditorState) : EditorState :=
  { st with vim_mode := true, command_mode := false, insert_mode := false,
            mode_label := ("NORMAL") }

/-- `VimAIEditor.set_insert_mode` (stylesheet and focus calls omitted). -/
def setInsertMode (st : EditorState) : EditorState :=
  { st with vim_mode := true, command_mode := false, insert_mode := true,
            mode_label := ("INSERT") }

/-- `VimAIEditor.update_command_status`. -/
def updateCommandStatus (st : EditorState) : EditorState :=
  { st with file_status_label := st.command_buffer }

/-- `VimAIEditor.set_command_mode` (stylesheet omitted): sets the flags,
resets the command buffer to a colon, then calls
`update_command_status`. -/
def setCommandMode (st : EditorState) : EditorState :=
  updateCommandStatus
    { st with vim_mode := true, command_mode := true, insert_mode := false,
              command_buffer := (":"), mode_label := ("COMMAND") }

/-- `VimAIEditor.update_status`. -/
def updateStatus (st : EditorState) : EditorState :=
  let fileStatus :=
    match st.current_file with
    | some f => f ++ (if st.modified then (" [modified]") else (""))
    | none => ("No file open")
  { st with file_status_label := fileStatus,
            ai_status_label := ("AI: ") ++ (if st.ai_connected then ("✓") else ("✗")) }

/-- `SyntaxHighlighter.set_document_language`: pick the language from the
filename extension. -/
def languageFor (filename : String) : Option String :=
  if pyEndsWith filename (".py") then some ("python")
  else if pyEndsWith filename (".js") || pyEndsWith filename (".jsx")
       || pyEndsWith filename (".ts") || pyEndsWith filename (".tsx") then some ("javascript")
  else if pyEndsWith filename (".c") then some ("c")
  else if pyEndsWith filename (".cpp") || pyEndsWith filename (".cc")
       || pyEndsWith filename (".cxx") || pyEndsWith filename (".c++")
       || pyEndsWith filename (".hpp") || pyEndsWith filename (".hxx") then some ("cpp")
  else if pyEndsWith filename (".md") || pyEndsWith filename (".markdown") then some ("markdown")
  else none

/-! ## Diagnostic setters (`LineNumberArea.set_errors` / `set_warnings` /
`set_info`) -/

/-- Membership test used by `dedupNat`. -/
def memNat (x : Nat) : List Nat → Bool
  | [] => false
  | y :: ys => x == y || memNat x ys

/-- Order-preserving deduplication, modelling Python `set(lines)`. -/
def dedupAux (seen : List Nat) : List Nat → List Nat
  | [] => []
  | x :: xs => if memNat x seen then dedupAux seen xs else x :: dedupAux (x :: seen) xs

/-- Python `set(lines)` stored back as a list. -/
def dedupNat (l : List Nat) : List Nat := dedupAux [] l

/-- `LineNumberArea.set_errors(lines, messages)`: the line set is always
overwritten, but the message dict is replaced only when `messages` is
truthy (a non-empty dict); `set_errors([])` with the default `None`
messages argument keeps the old messages. -/
def setErrorsFn (st : EditorState) (lines : List Nat) (messages : List (Nat × String)) : EditorState :=
  { st with error_lines := dedupNat lines,
            error_messages := if messages.isEmpty then st.error_messages else messages }

/-- `LineNumberArea.set_warnings(lines, messages)`, same shape as
`set_errors`. -/
def setWarningsFn (st : EditorState) (lines : List Nat) (messages : List (Nat × String)) : EditorState :=
  { st with warning_lines := dedupNat lines,
            warning_messages := if messages.isEmpty then st.warning_messages else messages }

/-- `LineNumberArea.set_info(lines, messages)`, same shape as
`set_errors`. -/
def setInfoFn (st : EditorState) (lines : List Nat) (messages : List (Nat × String)) : EditorState :=
  { st with info_lines := dedupNat lines,
            info_messages := if messages.isEmpty then st.info_messages else messages }

/-! ## File tree operations -/

mutual
/-- `VimAIEditor.update_file_content(item, filename, content)`: overwrite
the content of the first file named `filename`, reporting whether one was
found. -/
def updateFileContent (filename content : String) : FSNode → Bool × FSNode
  | .file name c =>
      if name == filename then (true, .file name content) else (false, .file name c)
  | .dir name children =>
      let r := updateFileList filename content children
      (r.1, .dir name r.2)
/-- The `for child in item['children']` loop of `update_file_content`,
stopping at the first success. -/
def updateFileList (filename content : String) : List FSNode → Bool × List FSNode
  | [] => (false, [])
  | c :: cs =>
      match updateFileContent filename content c with
      | (true, c2) => (true, c2 :: cs)
      | (false, c2) =>
          let r := updateFileList filename content cs
          (r.1, c2 :: r.2)
end

/-- `VimAIEditor.save_file`: no-op without a current file; otherwise write
the editor text into the first tree file with that name, clear the
modified flag, refresh the status bar and report success, or report
failure. -/
def saveFile (st : EditorState) : EditorState :=
  match st.current_file with
  | none => st
  | some f =>
      match updateFileList f st.bufferText st.tree with
      | (true, tree2) =>
          let st2 := updateStatus { st with tree := tree2, modified := false }
          { st2 with ai_output := ("Saved ") ++ f }
      | (false, tree2) =>
          { st with tree := tree2, ai_output := ("Could not save ") ++ f }

/-- The state updates performed by `search_and_open` when it reaches a
file whose name matches: `setPlainText`, `current_file`, `modified`,
`update_status`, `set_document_language`. `open_file` performs the same
five updates before clearing the diagnostic line sets. -/
def loadFileIntoEditor (name content : String) (st : EditorState) : EditorState :=
  let st2 := updateStatus { st with bufferText := content, current_file := some name,
                                    modified := false }
  { st2 with documentLanguage := languageFor name }

mutual
/-- `VimAIEditor.search_and_open(item, filename)`: depth-first search for
a file node named `filename`; on a hit, load it into the editor. -/
def searchAndOpen (filename : String) : FSNode → EditorState → Bool × EditorState
  | .file name content, st =>
      if name == filename then (true, loadFileIntoEditor name content st)
      else (false, st)
  | .dir _ children, st => searchOpenList filename children st
/-- The `for child in item['children']` loop of `search_and_open`,
stopping at the first success. -/
def searchOpenList (filename : String) : List FSNode → EditorState → Bool × EditorState
  | [], st => (false, st)
  | c :: cs, st =>
      match searchAndOpen filename c st with
      | (true, st2) => (true, st2)
      | (false, st2) => searchOpenList filename cs st2
end

/-- `VimAIEditor.find_and_open_file(filename)`: try every root child; when
none matches, report file-not-found in the assistant panel. -/
def findAndOpenFile (filename : String) (st : EditorState) : EditorState :=
  match searchOpenList filename st.tree st with
  | (true, st2) => st2
  | (false, st2) => { st2 with ai_output := ("File not found: ") ++ filename }

/-- `VimAIEditor.open_file(index)` (the double-click handler): for a file
node, load it into the editor, then clear the three diagnostic line sets
via `set_errors([])` / `set_warnings([])` / `set_info([])` (each with the
default `None` messages argument); directory nodes are ignored. -/
def openFile (item : FSNode) (st : EditorState) : EditorState :=
  match item with
  | .file name content =>
      let st2 := loadFileIntoEditor name content st
      let st3 := setErrorsFn st2 [] []
      let st4 := setWarningsFn st3 [] []
      setInfoFn st4 [] []
  | .dir _ _ => st

mutual
/-- Whether some descendant file node is named `filename` (the success
condition of `search_and_open`). -/
def treeHasFile (filename : String) : FSNode → Bool
  | .file name _ => name == filename
  | .dir _ children => listHasFile filename children
/-- `treeHasFile` over a children list. -/
def listHasFile (filename : String) : List FSNode → Bool
  | [] => false
  | c :: cs => treeHasFile filename c || listHasFile filename cs
end

/-! ## The lint pass (`VimAIEditor.lint_code`) -/

/-- The six collections `lint_code` accumulates: three line-number lists
(appended in scan order, possibly with duplicates) and three message
dicts. -/
structure LintResult where
  error_lines : List Nat
  warning_lines : List Nat
  info_lines : List Nat
  error_messages : List (Nat × String)
  warning_messages : List (Nat × String)
  info_messages : List (Nat × String)
deriving Repr, DecidableEq

/-- The empty accumulator at the start of the lint loop. -/
def emptyLint : LintResult :=
  { error_lines := [], warning_lines := [], info_lines := [],
    error_messages := [], warning_messages := [], info_messages := [] }

/-- Python dict assignment `d[k] = v`: replace the value at an existing
key, otherwise append in insertion order. -/
def dictInsert : List (Nat × String) → Nat → String → List (Nat × String)
  | [], k, v => [(k, v)]
  | (k1, v1) :: rest, k, v =>
      if k1 == k then (k1, v) :: rest else (k1, v1) :: dictInsert rest k v

/-- `warning_lines.append(i); warning_messages[i] = msg`. -/
def addWarning (acc : LintResult) (i : Nat) (msg : String) : LintResult :=
  { acc with warning_lines := acc.warning_lines ++ [i],
             warning_messages := dictInsert acc.warning_messages i msg }

/-- `info_lines.append(i); info_messages[i] = msg`. -/
def addInfo (acc : LintResult) (i : Nat) (msg : String) : LintResult :=
  { acc with info_lines := acc.info_lines ++ [i],
             info_messages := dictInsert acc.info_messages i msg }

/-- `error_lines.append(i); error_messages[i] = msg`. -/
def addError (acc : LintResult) (i : Nat) (msg : String) : LintResult :=
  { acc with error_lines := acc.error_lines ++ [i],
             error_messages := dictInsert acc.error_messages i msg }

/-- One iteration of the `for i, line in enumerate(lines, 1)` body of
`lint_code`: the import check, the print/f-string check, the TODO/FIXME
check, and the indentation check that looks back at `lines[i-2]`. -/
def lintLineStep (allLines : List String) (i : Nat) (line : String) (acc : LintResult) : LintResult :=
  let acc :=
    if pyIn ("import") line && !pyIn ("from") line && !pyIn ("import os") line then
      addWarning acc i
        ("Consider using \x27from module import name\x27 instead of \x27import module\x27")
    else acc
  let acc :=
    if pyIn ("print(") line && !pyIn ("f\"") line && !pyIn ("\x27") line then
      addInfo acc i ("Consider using f-strings for better readability")
    else acc
  let acc :=
    if pyIn ("TODO") line || pyIn ("FIXME") line then
      addError acc i ("TODO or FIXME found")
    else acc
  if pyIn ("    ") line && !pyStartsWith (pyStrip line) ("#") then
    if decide (1 < i) && !pyEndsWith (pyStrip ((allLines.drop (i - 2)).headD (""))) (":") then
      addWarning acc i ("Potential indentation issue")
    else acc
  else acc

/-- The lint loop over the remaining lines, carrying the 1-based index and
the full line list for the look-back at `lines[i-2]`. -/
def lintLoop (allLines : List String) : Nat → List String → LintResult → LintResult
  | _, [], acc => acc
  | i, line :: rest, acc => lintLoop allLines (i + 1) rest (lintLineStep allLines i line acc)

/-- The pure core of `lint_code`: the six collections computed from the
editor text split at newlines. -/
def lintLines (lines : List String) : LintResult := lintLoop lines 1 lines emptyLint

/-- The lint computation as a function of the editor state text — the
collections `lint_code` hands to the diagnostic setters. -/
def lintResultOf (st : EditorState) : LintResult := lintLines (pySplitNl st.bufferText)

/-- `', '.join(map(str, lines))`. -/
def joinNats (l : List Nat) : String := String.intercalate (", ") (l.map toString)

/-- The summary text `lint_code` writes to the assistant panel. -/
def lintSummary (r : LintResult) : String :=
  let s := ("Linting complete:\n")
    ++ ("Errors: ") ++ toString r.error_lines.length ++ ("\n")
    ++ ("Warnings: ") ++ toString r.warning_lines.length ++ ("\n")
    ++ ("Info: ") ++ toString r.info_lines.length ++ ("\n\n")
  let s := if r.error_lines.isEmpty then s
    else s ++ ("Errors on lines: ") ++ joinNats r.error_lines ++ ("\n")
  let s := if r.warning_lines.isEmpty then s
    else s ++ ("Warnings on lines: ") ++ joinNats r.warning_lines ++ ("\n")
  if r.info_lines.isEmpty then s
  else s ++ ("Info on lines: ") ++ joinNats r.info_lines ++ ("\n")

/-- `VimAIEditor.lint_code`: refuse without a current file; otherwise run
the per-line checks on the editor text, hand the results to the three
diagnostic setters, and write the summary to the assistant panel. -/
def lintCode (st : EditorState) : EditorState :=
  match st.current_file with
  | none => { st with ai_output := ("No file open to lint") }
  | some _ =>
      let r := lintResultOf st
      let st2 := setErrorsFn st r.error_lines r.error_messages
      let st3 := setWarningsFn st2 r.warning_lines r.warning_messages
      let st4 := setInfoFn st3 r.info_lines r.info_messages
      { st4 with ai_output := lintSummary r }

/-! ## The command executor (`VimAIEditor.execute_vim_command`) -/

/-- `VimAIEditor.execute_vim_command(command)`, with the branch order of
the source preserved: the `:w` prefix test comes before the `:wq` prefix
test. `call_ai`, `explain_code`, `run_current_file` and `close` are
emitted as effects; `save_file`, `find_and_open_file` and `lint_code`
update the state. -/
def executeVimCommand (command : String) (st : EditorState) : EditorState × List Effect :=
  if pyStartsWith command (":w") then (saveFile st, [])
  else if pyStartsWith command (":wq") then (saveFile st, [Effect.closeWindow])
  else if pyStartsWith command (":q") then (st, [Effect.closeWindow])
  else if pyStartsWith command (":e ") then
    (findAndOpenFile (pyStrip (pyDrop command 3)) st, [])
  else if pyStartsWith command (":ai ") then
    (st, [Effect.callAI (pyDrop command 4) st.bufferText])
  else if command == (":fix") then
    (st, [Effect.callAI ("Find and fix any bugs in this code:") st.bufferText])
  else if command == (":explain") then (st, [Effect.explainCode])
  else if command == (":opt") then
    (st, [Effect.callAI ("Optimize this code for better performance or readability:") st.bufferText])
  else if command == (":test") then
    (st, [Effect.callAI ("Generate unit tests for this code:") st.bufferText])
  else if command == (":run") then (st, [Effect.runFile])
  else if pyStartsWith command (":lint") then (lintCode st, [])
  else ({ st with ai_output := ("Unknown command: ") ++ command }, [])

/-! ## The keystroke dispatcher -/

/-- `VimAIEditor.vim_key_handler(event)`. Command mode consumes the event
into the command buffer (executing it on Return) and always refreshes the
command status line. Otherwise, when `vim_mode` is set and no modifier is
held, the normal-mode dispatch runs: `:`/`i`/`a` switch modes and return
early; every other keystroke falls through the movement/edit chain and
then records its text in `last_action`. In all remaining cases the event
is forwarded to `QPlainTextEdit.keyPressEvent`. -/
def vimKeyHandler (ev : KeyEvent) (st : EditorState) : EditorState × List Effect :=
  if st.command_mode then
    if ev.key == QtKey.escape then (updateCommandStatus (setNormalMode st), [])
    else if ev.key == QtKey.returnKey then
      let r := executeVimCommand st.command_buffer st
      (updateCommandStatus (setNormalMode { r.1 with command_buffer := ("") }), r.2)
    else if ev.key == QtKey.backspace then
      (updateCommandStatus { st with command_buffer := pyDropLast st.command_buffer }, [])
    else if ev.text != ("") then
      (updateCommandStatus { st with command_buffer := st.command_buffer ++ ev.text }, [])
    else (updateCommandStatus st, [])
  else if st.vim_mode && ev.mods == QtModifiers.noMods then
    if ev.text == (":") then (setCommandMode st, [])
    else if ev.text == ("i") then (setInsertMode st, [])
    else if ev.text == ("a") then (setInsertMode st, [Effect.moveRight])
    else
      let effs :=
        if ev.text == ("h") then [Effect.moveLeft]
        else if ev.text == ("j") then [Effect.moveDown]
        else if ev.text == ("k") then [Effect.moveUp]
        else if ev.text == ("l") then [Effect.moveRight]
        else if ev.text == ("x") then [Effect.deleteChar]
        else if ev.text == ("d") && st.last_action == some ("d") then [Effect.deleteLine]
        else if ev.text == ("u")
             && !(st.last_action == some ("u") || st.last_action == some ("ctrl+r")) then
          [Effect.undo]
        else if ev.mods == QtModifiers.ctrl && ev.text == ("r") then [Effect.redo]
        else if ev.text == ("G") then [Effect.moveEnd]
        else if ev.text == ("gg") then [Effect.moveStart]
        else []
      ({ st with last_action := some ev.text }, effs)
  else (st, [Effect.defaultKeyPress])

/-- `VimTextEdit.keyPressEvent(event)`: Ctrl-modified events go straight
to `QPlainTextEdit.keyPressEvent`; in insert mode, Escape switches back to
normal mode and everything else goes to the default handler; otherwise the
event is handed to the parent editor's `vim_key_handler`. -/
def keyPressVimTextEdit (ev : KeyEvent) (st : EditorState) : EditorState × List Effect :=
  if ev.mods == QtModifiers.ctrl then (st, [Effect.defaultKeyPress])
  else if st.insert_mode then
    if ev.key == QtKey.escape then (setNormalMode st, [])
    else (st, [Effect.defaultKeyPress])
  else vimKeyHandler ev st

/-- Deliver a sequence of key events to the editor widget, accumulating
the emitted effects in order. -/
def processKeys : List KeyEvent → EditorState → EditorState × List Effect
  | [], st => (st, [])
  | ev :: evs, st =>
      let r := keyPressVimTextEdit ev st
      let r2 := processKeys evs r.1
      (r2.1, r.2 ++ r2.2)

/-! ## Concrete sample data -/

/-- A plain `d` keystroke (no modifier). -/
def dKey : KeyEvent := { key := QtKey.otherKey, text := ("d"), mods := QtModifiers.noMods }

/-- A plain `i` keystroke (no modifier). -/
def iKey : KeyEvent := { key := QtKey.otherKey, text := ("i"), mods := QtModifiers.noMods }

/-- A plain `u` keystroke (no modifier). -/
def uKey : KeyEvent := { key := QtKey.otherKey, text := ("u"), mods := QtModifiers.noMods }

/-- A plain `g` keystroke (no modifier): `event.text()` of one keystroke
is the single character. -/
def gKey : KeyEvent := { key := QtKey.otherKey, text := ("g"), mods := QtModifiers.noMods }

/-- The Escape keystroke; Qt reports the escape control character as its
text. -/
def escKey : KeyEvent := { key := QtKey.escape, text := ("\x1b"), mods := QtModifiers.noMods }

/-- A `ctrl+r` chord: Qt reports `ControlModifier` and a control
character as the event text. -/
def ctrlREv : KeyEvent := { key := QtKey.otherKey, text := ("\x12"), mods := QtModifiers.ctrl }

/-- A small instance of the virtual workspace tree. -/
def demoTree : List FSNode :=
  [ .dir ("src")
      [ .file ("main.py") ("# Python starter code\nprint(\"Hello VimAI!\")"),
        .file ("testing.c") ("#include <stdio.h>") ],
    .file ("README.md") ("# notes") ]

/-- A concrete editor state in normal mode, as after startup with
`main.py` opened. -/
def demoState : EditorState :=
  { vim_mode := true, insert_mode := false, command_mode := false,
    last_action := none, current_file := some ("main.py"), modified := false,
    command_buffer := (""), bufferText := ("print(1)\nprint(2)"),
    tree := demoTree,
    error_lines := [], warning_lines := [], info_lines := [],
    error_messages := [], warning_messages := [], info_messages := [],
    mode_label := ("NORMAL"), file_status_label := ("main.py"),
    ai_status_label := ("AI: ✗"), ai_connected := false, ai_output := (""),
    documentLanguage := some ("python") }

/-- `demoState` with stale diagnostics recorded, for exercising the
reset-on-file-switch behaviour. -/
def staleDiagState : EditorState :=
  { demoState with
      error_lines := [2], warning_lines := [1], info_lines := [1, 2],
      error_messages := [(2, ("TODO or FIXME found"))],
      warning_messages := [(1, ("stale warning"))],
      info_messages := [(1, ("stale info")), (2, ("stale info"))] }

/-- `demoState` with `last_action` recording an immediately preceding
plain `d` keystroke. -/
def primedState : EditorState := { demoState with last_action := some ("d") }

/-- Sample editor text for the lint determinism check. -/
def lintSampleText : String := ("import sys\n# TODO fix\n    x = 1")

/-- First sample state for lint determinism: `demoState` viewing the
sample text. -/
def lintStA : EditorState := { demoState with bufferText := lintSampleText }

/-- Second sample state for lint determinism: same text as `lintStA` but
different stale diagnostics, status labels and assistant output. -/
def lintStB : EditorState :=
  { staleDiagState with bufferText := lintSampleText,
                        ai_output := ("previous output"),
                        file_status_label := ("other label") }

/-- The six diagnostic fields of the line number area agree between two
editor states. -/
def sameDiagnostics (a b : EditorState) : Prop :=
  a.error_lines = b.error_lines ∧ a.warning_lines = b.warning_lines ∧
  a.info_lines = b.info_lines ∧ a.error_messages = b.error_messages ∧
  a.warning_messages = b.warning_messages ∧ a.info_messages = b.info_messages

/-! ## Effect characterizations and dead-branch lemmas -/
theorem exec_snd (command : String) (st : EditorState) :
    (executeVimCommand command st).2 =
      if pyStartsWith command (":w") then []
      else if pyStartsWith command (":wq") then [Effect.closeWindow]
      else if pyStartsWith command (":q") then [Effect.closeWindow]
      else if pyStartsWith command (":e ") then []
      else if pyStartsWith command (":ai ") then [Effect.callAI (pyDrop command 4) st.bufferText]
      else if command == (":fix") then [Effect.callAI ("Find and fix any bugs in this code:") st.bufferText]
      else if command == (":explain") then [Effect.explainCode]
      else if command == (":opt") then [Effect.callAI ("Optimize this code for better performance or readability:") st.bufferText]
      else if command == (":test") then [Effect.callAI ("Generate unit tests for this code:") st.bufferText]
      else if command == (":run") then [Effect.runFile]
      else [] := by
  unfold executeVimCommand
  by_cases h1 : pyStartsWith command (":w") = true
  · simp only [if_pos h1]
  · simp only [if_neg h1]
    by_cases h2 : pyStartsWith command (":wq") = true
    · simp only [if_pos h2]
    · simp only [if_neg h2]
      by_cases h3 : pyStartsWith command (":q") = true
      · simp only [if_pos h3]
      · simp only [if_neg h3]
        by_cases h4 : pyStartsWith command (":e ") = true
        · simp only [if_pos h4]
        · simp only [if_neg h4]
          by_cases h5 : pyStartsWith command (":ai ") = true
          · simp only [if_pos h5]
          · simp only [if_neg h5]
            by_cases h6 : (command == (":fix")) = true
            · simp only [if_pos h6]
            · simp only [if_neg h6]
              by_cases h7 : (command == (":explain")) = true
              · simp only [if_pos h7]
              · simp only [if_neg h7]
                by_cases h8 : (command == (":opt")) = true
                · simp only [if_pos h8]
                · simp only [if_neg h8]
                  by_cases h9 : (command == (":test")) = true
                  · simp only [if_pos h9]
                  · simp only [if_neg h9]
                    by_cases h10 : (command == (":run")) = true
                    · simp only [if_pos h10]
                    · simp only [if_neg h10]
                      by_cases h11 : pyStartsWith command (":lint") = true
                      · simp only [if_pos h11]
                      · simp only [if_neg h11]

theorem vimKeyHandler_snd (ev : KeyEvent) (st : EditorState) :
    (vimKeyHandler ev st).2 =
      if st.command_mode then
        if ev.key == QtKey.escape then []
        else if ev.key == QtKey.returnKey then (executeVimCommand st.command_buffer st).2
        else if ev.key == QtKey.backspace then []
        else []
      else if st.vim_mode && ev.mods == QtModifiers.noMods then
        if ev.text == (":") then []
        else if ev.text == ("i") then []
        else if ev.text == ("a") then [Effect.moveRight]
        else
          if ev.text == ("h") then [Effect.moveLeft]
          else if ev.text == ("j") then [Effect.moveDown]
          else if ev.text == ("k") then [Effect.moveUp]
          else if ev.text == ("l") then [Effect.moveRight]
          else if ev.text == ("x") then [Effect.deleteChar]
          else if ev.text == ("d") && st.last_action == some ("d") then [Effect.deleteLine]
          else if ev.text == ("u")
               && !(st.last_action == some ("u") || st.last_action == some ("ctrl+r")) then
            [Effect.undo]
          else if ev.mods == QtModifiers.ctrl && ev.text == ("r") then [Effect.redo]
          else if ev.text == ("G") then [Effect.moveEnd]
          else if ev.text == ("gg") then [Effect.moveStart]
          else []
      else [Effect.defaultKeyPress] := by
  unfold vimKeyHandler
  by_cases h1 : st.command_mode = true
  · simp only [if_pos h1]
    by_cases h2 : (ev.key == QtKey.escape) = true
    · simp only [if_pos h2]
    · simp only [if_neg h2]
      by_cases h3 : (ev.key == QtKey.returnKey) = true
      · simp only [if_pos h3]
      · simp only [if_neg h3]
        by_cases h4 : (ev.key == QtKey.backspace) = true
        · simp only [if_pos h4]
        · simp only [if_neg h4]
          by_cases h5 : (ev.text != ("")) = true
          · simp only [if_pos h5]
          · simp only [if_neg h5]
  · simp only [if_neg h1]
    by_cases h6 : (st.vim_mode && ev.mods == QtModifiers.noMods) = true
    · simp only [if_pos h6]
      by_cases h7 : (ev.text == (":")) = true
      · simp only [if_pos h7]
      · simp only [if_neg h7]
        by_cases h8 : (ev.text == ("i")) = true
        · simp only [if_pos h8]
        · simp only [if_neg h8]
          by_cases h9 : (ev.text == ("a")) = true
          · simp only [if_pos h9]
          · simp only [if_neg h9]
    · simp only [if_neg h6]

theorem keyPress_snd (ev : KeyEvent) (st : EditorState) :
    (keyPressVimTextEdit ev st).2 =
      if ev.mods == QtModifiers.ctrl then [Effect.defaultKeyPress]
      else if st.insert_mode then
        if ev.key == QtKey.escape then [] else [Effect.defaultKeyPress]
      else (vimKeyHandler ev st).2 := by
  unfold keyPressVimTextEdit
  by_cases h1 : (ev.mods == QtModifiers.ctrl) = true
  · simp only [if_pos h1]
  · simp only [if_neg h1]
    by_cases h2 : st.insert_mode = true
    · simp only [if_pos h2]
      by_cases h3 : (ev.key == QtKey.escape) = true
      · simp only [if_pos h3]
      · simp only [if_neg h3]
    · simp only [if_neg h2]

theorem mem_ite_cases {α : Type} {c : Prop} [Decidable c] {a b : List α} {e : α}
    (h : e ∈ if c then a else b) : e ∈ a ∨ e ∈ b := by
  by_cases hc : c
  · rw [if_pos hc] at h; exact Or.inl h
  · rw [if_neg hc] at h; exact Or.inr h

theorem exec_no_redo (command : String) (st : EditorState) :
    Effect.redo ∉ (executeVimCommand command st).2 := by
  rw [exec_snd]
  intro hmem
  repeat' rcases mem_ite_cases hmem with hmem | hmem
  all_goals simp at hmem

theorem exec_no_moveStart (command : String) (st : EditorState) :
    Effect.moveStart ∉ (executeVimCommand command st).2 := by
  rw [exec_snd]
  intro hmem
  repeat' rcases mem_ite_cases hmem with hmem | hmem
  all_goals simp at hmem

theorem vimKeyHandler_no_redo (ev : KeyEvent) (st : EditorState) :
    Effect.redo ∉ (vimKeyHandler ev st).2 := by
  rw [vimKeyHandler_snd]
  intro hmem
  by_cases h1 : st.command_mode = true
  · rw [if_pos h1] at hmem
    repeat' rcases mem_ite_cases hmem with hmem | hmem
    all_goals first | exact exec_no_redo st.command_buffer st hmem | simp at hmem
  · rw [if_neg h1] at hmem
    by_cases h5 : (st.vim_mode && ev.mods == QtModifiers.noMods) = true
    · rw [if_pos h5] at hmem
      have h6 := h5
      rw [Bool.and_eq_true] at h6
      have he : ev.mods = QtModifiers.noMods := by simpa using h6.2
      have hc : (ev.mods == QtModifiers.ctrl) = false := by rw [he]; decide
      simp only [hc, Bool.false_and] at hmem
      simp only [if_neg (show ¬((false : Bool) = true) by decide)] at hmem
      repeat' rcases mem_ite_cases hmem with hmem | hmem
      all_goals simp at hmem
    · rw [if_neg h5] at hmem
      simp at hmem

theorem keyPress_no_redo (ev : KeyEvent) (st : EditorState) :
    Effect.redo ∉ (keyPressVimTextEdit ev st).2 := by
  rw [keyPress_snd]
  intro hmem
  by_cases h1 : (ev.mods == QtModifiers.ctrl) = true
  · rw [if_pos h1] at hmem; simp at hmem
  · rw [if_neg h1] at hmem
    by_cases h2 : st.insert_mode = true
    · rw [if_pos h2] at hmem
      rcases mem_ite_cases hmem with hmem | hmem <;> simp at hmem
    · rw [if_neg h2] at hmem
      exact vimKeyHandler_no_redo ev st hmem

theorem vimKeyHandler_no_moveStart (ev : KeyEvent) (st : EditorState)
    (h : ev.text.length ≤ 1) :
    Effect.moveStart ∉ (vimKeyHandler ev st).2 := by
  have hgg : (ev.text == ("gg")) = false := by
    cases hb : (ev.text == ("gg")) with
    | false => rfl
    | true =>
        have h3 : ev.text = ("gg") := by simpa using hb
        rw [h3] at h
        exact absurd h (by decide)
  rw [vimKeyHandler_snd]
  intro hmem
  by_cases h1 : st.command_mode = true
  · rw [if_pos h1] at hmem
    repeat' rcases mem_ite_cases hmem with hmem | hmem
    all_goals first | exact exec_no_moveStart st.command_buffer st hmem | simp at hmem
  · rw [if_neg h1] at hmem
    by_cases h5 : (st.vim_mode && ev.mods == QtModifiers.noMods) = true
    · rw [if_pos h5] at hmem
      simp only [hgg] at hmem
      simp only [if_neg (show ¬((false : Bool) = true) by decide)] at hmem
      repeat' rcases mem_ite_cases hmem with hmem | hmem
      all_goals simp at hmem
    · rw [if_neg h5] at hmem
      simp at hmem

theorem keyPress_no_moveStart (ev : KeyEvent) (st : EditorState)
    (h : ev.text.length ≤ 1) :
    Effect.moveStart ∉ (keyPressVimTextEdit ev st).2 := by
  rw [keyPress_snd]
  intro hmem
  by_cases h1 : (ev.mods == QtModifiers.ctrl) = true
  · rw [if_pos h1] at hmem; simp at hmem
  · rw [if_neg h1] at hmem
    by_cases h2 : st.insert_mode = true
    · rw [if_pos h2] at hmem
      rcases mem_ite_cases hmem with hmem | hmem <;> simp at hmem
    · rw [if_neg h2] at hmem
      exact vimKeyHandler_no_moveStart ev st h hmem

theorem processKeys_no_moveStart (evs : List KeyEvent) (st : EditorState)
    (h : ∀ ev ∈ evs, ev.text.length ≤ 1) :
    Effect.moveStart ∉ (processKeys evs st).2 := by
  induction evs generalizing st with
  | nil => simp [processKeys]
  | cons ev rest ih =>
      intro hmem
      unfold processKeys at hmem
      simp only [List.mem_append] at hmem
      rcases hmem with hl | hr
      · exact keyPress_no_moveStart ev st (h ev (by simp)) hl
      · exact ih (keyPressVimTextEdit ev st).1 (fun e he => h e (by simp [he])) hr

theorem sameDiagnostics_refl (a : EditorState) : sameDiagnostics a a :=
  ⟨rfl, rfl, rfl, rfl, rfl, rfl⟩

theorem sameDiagnostics_trans {a b c : EditorState}
    (h1 : sameDiagnostics a b) (h2 : sameDiagnostics b c) : sameDiagnostics a c :=
  ⟨h1.1.trans h2.1, h1.2.1.trans h2.2.1, h1.2.2.1.trans h2.2.2.1,
   h1.2.2.2.1.trans h2.2.2.2.1, h1.2.2.2.2.1.trans h2.2.2.2.2.1,
   h1.2.2.2.2.2.trans h2.2.2.2.2.2⟩

mutual
theorem searchAndOpen_diags (fn : String) (t : FSNode) (st : EditorState) :
    sameDiagnostics (searchAndOpen fn t st).2 st := by
  cases t with
  | file name content =>
      by_cases h : (name == fn) = true
      · simp only [searchAndOpen, if_pos h]
        exact ⟨rfl, rfl, rfl, rfl, rfl, rfl⟩
      · simp only [searchAndOpen, if_neg h]
        exact sameDiagnostics_refl st
  | dir n cs => exact searchOpenList_diags fn cs st
theorem searchOpenList_diags (fn : String) (ts : List FSNode) (st : EditorState) :
    sameDiagnostics (searchOpenList fn ts st).2 st := by
  cases ts with
  | nil => exact sameDiagnostics_refl st
  | cons c cs =>
      have h1 := searchAndOpen_diags fn c st
      cases hr : searchAndOpen fn c st with
      | mk found st2 =>
          rw [hr] at h1
          cases found with
          | true => simpa [searchOpenList, hr] using h1
          | false =>
              have h2 := searchOpenList_diags fn cs st2
              simpa [searchOpenList, hr] using sameDiagnostics_trans h2 h1
end

theorem findAndOpenFile_diags (fn : String) (st : EditorState) :
    sameDiagnostics (findAndOpenFile fn st) st := by
  have h1 := searchOpenList_diags fn st.tree st
  unfold findAndOpenFile
  cases hr : searchOpenList fn st.tree st with
  | mk found st2 =>
      rw [hr] at h1
      cases found with
      | true => simpa using h1
      | false =>
          refine sameDiagnostics_trans ?_ h1
          exact ⟨rfl, rfl, rfl, rfl, rfl, rfl⟩

mutual
theorem searchAndOpen_notFound (fn : String) (t : FSNode) (st : EditorState)
    (h : treeHasFile fn t = false) : searchAndOpen fn t st = (false, st) := by
  cases t with
  | file name content =>
      have hne : (name == fn) = false := by simpa [treeHasFile] using h
      simp [searchAndOpen, hne]
  | dir n cs =>
      have h2 : listHasFile fn cs = false := by simpa [treeHasFile] using h
      simpa [searchAndOpen] using searchOpenList_notFound fn cs st h2
theorem searchOpenList_notFound (fn : String) (ts : List FSNode) (st : EditorState)
    (h : listHasFile fn ts = false) : searchOpenList fn ts st = (false, st) := by
  cases ts with
  | nil => simp [searchOpenList]
  | cons c cs =>
      have h0 : treeHasFile fn c = false ∧ listHasFile fn cs = false := by
        simpa [listHasFile] using h
      rw [searchOpenList, searchAndOpen_notFound fn c st h0.1]
      exact searchOpenList_notFound fn cs st h0.2
end

/-! ## Claim theorems -/

/-- Claim C10: after any of `set_normal_mode`, `set_insert_mode`,
`set_command_mode`, the `vim_mode` flag is set and `insert_mode` and
`command_mode` are never both set, so the editor is never simultaneously
in insert and command mode. -/
theorem c10_mode_flags_invariant (st : EditorState) :
    ((setNormalMode st).vim_mode = true ∧
      ¬((setNormalMode st).insert_mode = true ∧ (setNormalMode st).command_mode = true)) ∧
    ((setInsertMode st).vim_mode = true ∧
      ¬((setInsertMode st).insert_mode = true ∧ (setInsertMode st).command_mode = true)) ∧
    ((setCommandMode st).vim_mode = true ∧
      ¬((setCommandMode st).insert_mode = true ∧ (setCommandMode st).command_mode = true)) := by
  simp [setNormalMode, setInsertMode, setCommandMode, updateCommandStatus]

/-- Claim C2: from normal mode (`vim_mode` set, `insert_mode` and
`command_mode` clear), pressing `i` and then Escape emits no effect,
leaves the buffer text untouched, and lands back in exactly the
normal-mode flag configuration, for every starting state. -/
theorem c2_insert_escape_round_trip (st : EditorState) (hv : st.vim_mode = true)
    (hi : st.insert_mode = false) (hc : st.command_mode = false) :
    ((keyPressVimTextEdit escKey (keyPressVimTextEdit iKey st).1).1.insert_mode = false ∧
     (keyPressVimTextEdit escKey (keyPressVimTextEdit iKey st).1).1.command_mode = false ∧
     (keyPressVimTextEdit escKey (keyPressVimTextEdit iKey st).1).1.vim_mode = true) ∧
    (keyPressVimTextEdit escKey (keyPressVimTextEdit iKey st).1).1.bufferText = st.bufferText ∧
    (keyPressVimTextEdit iKey st).2 = [] ∧
    (keyPressVimTextEdit escKey (keyPressVimTextEdit iKey st).1).2 = [] := by
  have h1 : keyPressVimTextEdit iKey st = (setInsertMode st, []) := by
    unfold keyPressVimTextEdit vimKeyHandler iKey
    simp [hv, hi, hc]
  have h2 : keyPressVimTextEdit escKey (setInsertMode st) =
      (setNormalMode (setInsertMode st), []) := by
    unfold keyPressVimTextEdit escKey
    simp [setInsertMode]
  have h3 : (keyPressVimTextEdit iKey st).1 = setInsertMode st := by rw [h1]
  rw [h3, h2, h1]
  simp [setNormalMode, setInsertMode]

/-- Witness for C2 at the concrete `demoState`. -/
theorem c2_round_trip_witness :
    demoState.vim_mode = true ∧ demoState.insert_mode = false ∧
    demoState.command_mode = false ∧
    (keyPressVimTextEdit escKey (keyPressVimTextEdit iKey demoState).1).1.insert_mode = false :=
  ⟨rfl, rfl, rfl, (c2_insert_escape_round_trip demoState rfl rfl rfl).1.1⟩

/-- Claim C1 (amended): in normal mode a plain `d` keystroke emits the
delete-line edit exactly when the stored `last_action` is `d`, and
otherwise performs no edit at all; the only state change is that
`last_action` becomes `d`. `last_action` holds the text of the most
recent keystroke that ran to the end of the normal-mode dispatch, which
need not be the immediately preceding normal-mode keystroke, because
`:`, `i` and `a` return before updating it. -/
theorem c1_dd_deletes_iff_stored_last_action (st : EditorState) (hv : st.vim_mode = true)
    (hi : st.insert_mode = false) (hc : st.command_mode = false) :
    keyPressVimTextEdit dKey st =
      ({ st with last_action := some ("d") },
       if st.last_action == some ("d") then [Effect.deleteLine] else []) := by
  unfold keyPressVimTextEdit vimKeyHandler dKey
  simp [hv, hi, hc]

/-- Witness for C1 at a state whose `last_action` is `d`: the keystroke
deletes the line. -/
theorem c1_dd_witness :
    keyPressVimTextEdit dKey primedState =
      ({ primedState with last_action := some ("d") }, [Effect.deleteLine]) :=
  c1_dd_deletes_iff_stored_last_action primedState rfl rfl rfl

/-- Counterexample to C1 as stated: after `d`, `i`, Escape, the editor is
back in normal mode and the immediately preceding normal-mode keystroke
was `i` (the `d` was delivered three keystrokes ago and Escape arrived in
insert mode), yet the final `d` still deletes the line, because `i`
returned from the dispatcher before `last_action` was updated. -/
theorem c1_dd_preceding_keystroke_cex :
    ((keyPressVimTextEdit dKey demoState).1.insert_mode = false ∧
     (keyPressVimTextEdit dKey demoState).1.command_mode = false ∧
     (keyPressVimTextEdit dKey demoState).1.vim_mode = true) ∧
    iKey.text ≠ ("d") ∧
    (keyPressVimTextEdit iKey (keyPressVimTextEdit dKey demoState).1).1.insert_mode = true ∧
    ((keyPressVimTextEdit escKey
        (keyPressVimTextEdit iKey (keyPressVimTextEdit dKey demoState).1).1).1.insert_mode
          = false ∧
     (keyPressVimTextEdit escKey
        (keyPressVimTextEdit iKey (keyPressVimTextEdit dKey demoState).1).1).1.command_mode
          = false) ∧
    (keyPressVimTextEdit dKey
      (keyPressVimTextEdit escKey
        (keyPressVimTextEdit iKey (keyPressVimTextEdit dKey demoState).1).1).1).2
      = [Effect.deleteLine] :=
  ⟨⟨rfl, rfl, rfl⟩, by decide, rfl, ⟨rfl, rfl⟩, rfl⟩

/-- Claim C6 (amended): in normal mode a plain `u` keystroke emits an
undo exactly when the stored `last_action` is neither `u` nor the literal
string `ctrl+r`; in particular the second of two consecutive `u`
keystrokes performs no undo. -/
theorem c6_u_undoes_iff_guard (st : EditorState) (hv : st.vim_mode = true)
    (hi : st.insert_mode = false) (hc : st.command_mode = false) :
    keyPressVimTextEdit uKey st =
      ({ st with last_action := some ("u") },
       if st.last_action == some ("u") || st.last_action == some ("ctrl+r") then []
       else [Effect.undo]) := by
  unfold keyPressVimTextEdit vimKeyHandler uKey
  simp [hv, hi, hc]
  split_ifs <;> tauto

/-- Witness for C6 at `demoState` (no previous action): the `u` keystroke
does undo. -/
theorem c6_u_witness :
    keyPressVimTextEdit uKey demoState =
      ({ demoState with last_action := some ("u") }, [Effect.undo]) :=
  c6_u_undoes_iff_guard demoState rfl rfl rfl

/-- Counterexample to C6 as stated: of two consecutive `u` keystrokes in
normal mode, the first emits an undo and the second emits nothing,
because the guard `last_action not in [u, ctrl+r]` blocks it. -/
theorem c6_double_u_cex :
    (keyPressVimTextEdit uKey demoState).2 = [Effect.undo] ∧
    (keyPressVimTextEdit uKey (keyPressVimTextEdit uKey demoState).1).2 = [] ∧
    (keyPressVimTextEdit uKey demoState).1.insert_mode = false ∧
    (keyPressVimTextEdit uKey demoState).1.command_mode = false :=
  ⟨rfl, rfl, rfl, rfl⟩

/-- Claim C3 (code bug): submitting `:wq` runs the `:w` branch of
`execute_vim_command`, because the `:w` prefix test precedes the `:wq`
prefix test and `:wq` starts with `:w`. The command therefore only saves;
the dedicated `:wq` branch that also closes the window is unreachable and
no close effect is emitted. -/
theorem c3_wq_takes_w_branch_save_only (st : EditorState) :
    executeVimCommand (":wq") st = (saveFile st, []) ∧
    Effect.closeWindow ∉ (executeVimCommand (":wq") st).2 := by
  refine ⟨rfl, ?_⟩
  intro h
  have h2 : (executeVimCommand (":wq") st).2 = [] := rfl
  rw [h2] at h
  exact List.not_mem_nil _ h

/-- Claim C4 (code bug): a `ctrl+r` keystroke never reaches the redo
branch. Any Ctrl-modified event is forwarded by
`VimTextEdit.keyPressEvent` straight to the default
`QPlainTextEdit.keyPressEvent` handling with the state untouched, and no
event whatever can make the dispatcher emit a redo, because the redo test
sits inside the block guarded by `not modifiers`. -/
theorem c4_ctrl_r_redo_branch_dead (st : EditorState) (ev : KeyEvent) :
    Effect.redo ∉ (keyPressVimTextEdit ev st).2 ∧
    (ev.mods = QtModifiers.ctrl →
      keyPressVimTextEdit ev st = (st, [Effect.defaultKeyPress])) := by
  refine ⟨keyPress_no_redo ev st, fun hm => ?_⟩
  unfold keyPressVimTextEdit
  rw [hm]
  simp

/-- Witness for C4 at the concrete `ctrl+r` chord in `demoState`. -/
theorem c4_ctrl_r_witness :
    ctrlREv.mods = QtModifiers.ctrl ∧
    keyPressVimTextEdit ctrlREv demoState = (demoState, [Effect.defaultKeyPress]) :=
  ⟨rfl, (c4_ctrl_r_redo_branch_dead demoState ctrlREv).2 rfl⟩

/-- Claim C5 (code bug): no sequence of single-keystroke events (each
event text at most one character, as Qt delivers them) can ever reach
the move-to-start branch, because that branch compares the event text of
one keystroke with the two-character string `gg`. -/
theorem c5_gg_jump_unreachable (st : EditorState) (evs : List KeyEvent)
    (h : ∀ ev ∈ evs, ev.text.length ≤ 1) :
    Effect.moveStart ∉ (processKeys evs st).2 :=
  processKeys_no_moveStart evs st h

/-- Witness for C5: the concrete two-keystroke sequence `g`, `g` in
`demoState` produces no move-to-start effect. -/
theorem c5_gg_witness :
    (∀ ev ∈ [gKey, gKey], ev.text.length ≤ 1) ∧
    Effect.moveStart ∉ (processKeys [gKey, gKey] demoState).2 :=
  ⟨by decide, c5_gg_jump_unreachable demoState [gKey, gKey] (by decide)⟩

/-- Claim C7 (amended): the double-click open path (`open_file`) resets
the three diagnostic line sets to empty but keeps the previous message
maps (its `set_errors([])` calls pass a falsy messages argument), while
opening via `:e` (`find_and_open_file` / `search_and_open`) leaves all
six diagnostic fields exactly as they were. -/
theorem c7_diagnostic_reset_behaviour (st : EditorState) (name content fn : String) :
    ((openFile (FSNode.file name content) st).error_lines = [] ∧
     (openFile (FSNode.file name content) st).warning_lines = [] ∧
     (openFile (FSNode.file name content) st).info_lines = [] ∧
     (openFile (FSNode.file name content) st).error_messages = st.error_messages ∧
     (openFile (FSNode.file name content) st).warning_messages = st.warning_messages ∧
     (openFile (FSNode.file name content) st).info_messages = st.info_messages) ∧
    sameDiagnostics (findAndOpenFile fn st) st := by
  refine ⟨?_, findAndOpenFile_diags fn st⟩
  simp [openFile, loadFileIntoEditor, updateStatus, setErrorsFn, setWarningsFn, setInfoFn,
        dedupNat, dedupAux]

/-- Counterexample to C7 as stated: executing `:e main.py` from a state
holding stale diagnostics switches the file but leaves every stale
marker in place, and even the double-click open path keeps the old
message map. -/
theorem c7_e_command_stale_diagnostics_cex :
    (executeVimCommand (":e main.py") staleDiagState).1.current_file = some ("main.py") ∧
    (executeVimCommand (":e main.py") staleDiagState).1.error_lines = [2] ∧
    (executeVimCommand (":e main.py") staleDiagState).1.warning_lines = [1] ∧
    (executeVimCommand (":e main.py") staleDiagState).1.info_lines = [1, 2] ∧
    (executeVimCommand (":e main.py") staleDiagState).1.error_messages
      = [(2, ("TODO or FIXME found"))] ∧
    ([2] : List Nat) ≠ [] ∧
    (openFile (FSNode.file ("README.md") ("# notes")) staleDiagState).error_messages ≠ [] :=
  ⟨rfl, rfl, rfl, rfl, rfl, by decide, by decide⟩

/-- Claim C8: when no file node anywhere in the tree bears the requested
name, `find_and_open_file` only writes the file-not-found message to the
assistant panel; `current_file`, the buffer text, the whole tree and
every other field are unchanged. -/
theorem c8_e_not_found_state_preserved (st : EditorState) (fn : String)
    (h : listHasFile fn st.tree = false) :
    findAndOpenFile fn st = { st with ai_output := ("File not found: ") ++ fn } := by
  unfold findAndOpenFile
  rw [searchOpenList_notFound fn st.tree st h]

/-- Witness for C8: `ghost.py` names no file in `demoState`'s tree, and
the command leaves everything but the assistant panel unchanged. -/
theorem c8_not_found_witness :
    listHasFile ("ghost.py") demoState.tree = false ∧
    findAndOpenFile ("ghost.py") demoState =
      { demoState with ai_output := ("File not found: ") ++ ("ghost.py") } :=
  ⟨rfl, c8_e_not_found_state_preserved demoState ("ghost.py") rfl⟩

/-- Claim C9: the lint pass is deterministic. Two states with the same
editor text produce identical lint collections (the three line lists and
the three message maps), and, when both states have a file open, the
resulting diagnostic line sets stored by `lint_code` agree as well. -/
theorem c9_lint_deterministic (s1 s2 : EditorState)
    (hbuf : s1.bufferText = s2.bufferText) :
    lintResultOf s1 = lintResultOf s2 ∧
    (s1.current_file.isSome = true → s2.current_file.isSome = true →
      (lintCode s1).error_lines = (lintCode s2).error_lines ∧
      (lintCode s1).warning_lines = (lintCode s2).warning_lines ∧
      (lintCode s1).info_lines = (lintCode s2).info_lines) := by
  have h : lintResultOf s1 = lintResultOf s2 := by
    unfold lintResultOf
    rw [hbuf]
  refine ⟨h, fun h1 h2 => ?_⟩
  obtain ⟨f1, hf1⟩ := Option.isSome_iff_exists.mp h1
  obtain ⟨f2, hf2⟩ := Option.isSome_iff_exists.mp h2
  unfold lintCode
  rw [hf1, hf2]
  simp [setErrorsFn, setWarningsFn, setInfoFn, h]

/-- Witness for C9 at two concrete states sharing the sample text but
differing in stale diagnostics and labels. -/
theorem c9_lint_witness :
    lintStA.bufferText = lintStB.bufferText ∧
    lintResultOf lintStA = lintResultOf lintStB :=
  ⟨rfl, (c9_lint_deterministic lintStA lintStB rfl).1⟩
